import Mathlib

/-!
Shallow embedding of dump_imap.py (an IMAP folder dumper).

Python strings are modelled as lists of Unicode code points (CP);
Python bytes as lists of Nat (each < 256 where produced by the encoder).
Stdlib collaborators (pathconf, email header decoding, date parsing,
strftime, the IMAP session) are modelled as oracle inputs or small
definitions noted in doc comments.
-/

/-- A Python str, as its list of Unicode code points. -/
abbrev CP := List Nat

/-- Code points of a Lean string literal (used for the Python string literals
appearing in the source). -/
def toCP (s : String) : CP := s.data.map Char.toNat

/-- A valid Unicode scalar value: in range and not a surrogate.  Python's
utf-8 codec refuses anything else. -/
def ValidCP (c : Nat) : Prop := c < 0x110000 ∧ (c < 0xD800 ∨ 0xE000 ≤ c)

instance (c : Nat) : Decidable (ValidCP c) := by
  unfold ValidCP; infer_instance

/-- UTF-8 encoding of one code point (`str.encode` per character,
dump_imap.py line 64). -/
def utf8EncodeChar (c : Nat) : List Nat :=
  if c < 0x80 then [c]
  else if c < 0x800 then [0xC0 + c / 0x40, 0x80 + c % 0x40]
  else if c < 0x10000 then
    [0xE0 + c / 0x1000, 0x80 + (c / 0x40) % 0x40, 0x80 + c % 0x40]
  else
    [0xF0 + c / 0x40000, 0x80 + (c / 0x1000) % 0x40,
      0x80 + (c / 0x40) % 0x40, 0x80 + c % 0x40]

/-- UTF-8 encoding of a whole string (`filename.encode('utf-8')`,
dump_imap.py line 64). -/
def utf8Encode : CP → List Nat
  | [] => []
  | c :: cs => utf8EncodeChar c ++ utf8Encode cs

/-- Strict UTF-8 decoding of one code point from the head of a byte list:
rejects stray continuation bytes, truncated sequences, overlong forms,
surrogates and out-of-range values, exactly like Python's
`bytes.decode('utf-8')`. -/
def utf8DecodeChar : List Nat → Option (Nat × List Nat)
  | [] => none
  | b :: r =>
    if b < 0x80 then some (b, r)
    else if b < 0xC0 then none
    else if b < 0xE0 then
      match r with
      | c1 :: r1 =>
        if 0x80 ≤ c1 ∧ c1 < 0xC0 then
          if 0x80 ≤ (b - 0xC0) * 0x40 + (c1 - 0x80) then
            some ((b - 0xC0) * 0x40 + (c1 - 0x80), r1)
          else none
        else none
      | [] => none
    else if b < 0xF0 then
      match r with
      | c1 :: c2 :: r2 =>
        if (0x80 ≤ c1 ∧ c1 < 0xC0) ∧ (0x80 ≤ c2 ∧ c2 < 0xC0) then
          if 0x800 ≤ (b - 0xE0) * 0x1000 + (c1 - 0x80) * 0x40 + (c2 - 0x80) ∧
              ((b - 0xE0) * 0x1000 + (c1 - 0x80) * 0x40 + (c2 - 0x80) < 0xD800 ∨
                0xE000 ≤ (b - 0xE0) * 0x1000 + (c1 - 0x80) * 0x40 + (c2 - 0x80)) then
            some ((b - 0xE0) * 0x1000 + (c1 - 0x80) * 0x40 + (c2 - 0x80), r2)
          else none
        else none
      | _ => none
    else if b < 0xF8 then
      match r with
      | c1 :: c2 :: c3 :: r3 =>
        if (0x80 ≤ c1 ∧ c1 < 0xC0) ∧ (0x80 ≤ c2 ∧ c2 < 0xC0) ∧
            (0x80 ≤ c3 ∧ c3 < 0xC0) then
          if 0x10000 ≤ (b - 0xF0) * 0x40000 + (c1 - 0x80) * 0x1000 +
                (c2 - 0x80) * 0x40 + (c3 - 0x80) ∧
              (b - 0xF0) * 0x40000 + (c1 - 0x80) * 0x1000 +
                (c2 - 0x80) * 0x40 + (c3 - 0x80) < 0x110000 then
            some ((b - 0xF0) * 0x40000 + (c1 - 0x80) * 0x1000 +
              (c2 - 0x80) * 0x40 + (c3 - 0x80), r3)
          else none
        else none
      | _ => none
    else none

/-- Fuelled whole-byte-string decoder; fuel is the byte count, which always
suffices since every step consumes at least one byte. -/
def utf8DecodeN : Nat → List Nat → Option CP
  | _, [] => some []
  | 0, _ :: _ => none
  | n + 1, b :: r0 =>
    match utf8DecodeChar (b :: r0) with
    | none => none
    | some (cp, r) => (utf8DecodeN n r).map (fun cs => cp :: cs)

/-- `bytes.decode('utf-8')` (dump_imap.py line 77): `some` on success,
`none` models UnicodeDecodeError. -/
def utf8Decode (l : List Nat) : Option CP := utf8DecodeN l.length l

/-- The retry loop of dump_imap.py lines 75-81 with explicit fuel: decode
the bytes; on UnicodeDecodeError drop the last byte and try again.  The
fuel-0 fallback is unreachable when the fuel is at least the byte count,
because decoding the empty byte string succeeds. -/
def fitBytesN : Nat → List Nat → CP
  | 0, bs =>
    (match utf8Decode bs with
     | some cs => cs
     | none => [])
  | n + 1, bs =>
    (match utf8Decode bs with
     | some cs => cs
     | none => fitBytesN n bs.dropLast)

/-- The retry loop of dump_imap.py lines 75-81: each retry shortens the
byte string, so `bs.length` rounds of fuel always suffice. -/
def fitBytes (bs : List Nat) : CP := fitBytesN bs.length bs

/-- Python list/bytes slicing `l[:n]` with a possibly negative bound
(`filename_bytes[:max_main_bytes]`, dump_imap.py line 74). -/
def pySlice (l : List Nat) (n : Int) : List Nat :=
  if n < 0 then l.take (l.length - (-n).toNat) else l.take n.toNat

/-- dump_imap.py lines 54-83.  `os.pathconf(output_dir, 'PC_NAME_MAX')` is
modelled as the parameter `max_length` (an oracle for the filesystem limit
of the directory the source passes in). -/
def trim_file_name (filename : CP) (file_ext : CP) (max_length : Int) : CP :=
  -- line 69: max_main_bytes = max_length - len(ext_bytes) - 1
  -- line 72: if len(filename_bytes) > max_main_bytes:
  if ((utf8Encode filename).length : Int) >
      max_length - ((utf8Encode file_ext).length : Int) - 1 then
    -- line 74 then lines 75-81
    fitBytes (pySlice (utf8Encode filename)
      (max_length - ((utf8Encode file_ext).length : Int) - 1))
  else
    filename

/-! ## Per-message metadata extraction (dump_imap.py lines 110-147) -/

/-- The timestamp produced by `parsedate_tz` / `mktime_tz` /
`datetime.fromtimestamp` when the whole pipeline succeeds
(dump_imap.py lines 120-124). -/
structure DT where
  year : Nat
  month : Nat
  day : Nat
  hour : Nat
  minute : Nat
  second : Nat
deriving DecidableEq, Repr

/-- Decimal digits of a number, as code points (`str(n)`). -/
def natToCP (n : Nat) : CP := (Nat.toDigits 10 n).map Char.toNat

/-- Zero-pad to two digits (strftime %m %d %H %M %S). -/
def pad2 (n : Nat) : CP := if n < 10 then 48 :: natToCP n else natToCP n

/-- Zero-pad to four digits (strftime %Y for the 4-digit years email dates
carry). -/
def pad4 (n : Nat) : CP := List.replicate (4 - (natToCP n).length) 48 ++ natToCP n

/-- Modelled stdlib collaborator: `datetime_.strftime('%Y-%m-%d %H:%M:%S')`
(dump_imap.py line 126).  45, 32, 58 are the code points of hyphen, space
and colon. -/
def strftime (dt : DT) : CP :=
  pad4 dt.year ++ [45] ++ pad2 dt.month ++ [45] ++ pad2 dt.day ++ [32] ++
    pad2 dt.hour ++ [58] ++ pad2 dt.minute ++ [58] ++ pad2 dt.second

/-- Oracle view of one fetched message's headers, as the stdlib calls of
dump_imap.py lines 114-127 observe them:
* `subjectDecoded = none` models `decode_header(msg['Subject'])` /
  `make_header` raising (e.g. the Subject header is absent, so
  `decode_header(None)` raises TypeError); `some s` is `str(header)`,
  which is always a string, never Python None.
* `dateRaises` models the date pipeline (lines 120-126) raising after the
  subject was assigned.
* `dateParsed` is the outcome of `parsedate_tz`+`mktime_tz`+`fromtimestamp`
  when nothing raises: `none` when `parsedate_tz` returns None.
* `messageIdHdr` is `msg['Message-ID']`: `none` when the header is absent
  (the lookup yields Python None). -/
structure MsgMeta where
  subjectDecoded : Option CP
  dateRaises : Bool
  dateParsed : Option DT
  messageIdHdr : Option CP
deriving DecidableEq

/-- The try/except block of dump_imap.py lines 111-129: the values of the
variables (subject, date, message_id) after it.  `subject` and
`message_id` are Python variables that may hold None, hence `Option CP`;
their initial values are the strings 'No subject' and '' (lines 111-113).
A raise at the subject decode leaves date and message_id at their initial
values; a raise in the date pipeline leaves date and message_id at their
initial values but keeps the already-assigned subject. -/
def tryMeta (m : MsgMeta) : Option CP × CP × Option CP :=
  match m.subjectDecoded with
  | none => (some (toCP "No subject"), [], some [])
  | some subj =>
    if m.dateRaises then (some subj, [], some [])
    else
      (some subj,
        (match m.dateParsed with
         | some dt => strftime dt ++ toCP " - "
         | none => []),
        m.messageIdHdr)

/-- dump_imap.py lines 132-133: `if subject is None: subject = "No Subject"`. -/
def subjectAfterNoneCheck (m : MsgMeta) : CP :=
  match (tryMeta m).1 with
  | none => toCP "No Subject"
  | some s => s

/-- dump_imap.py lines 142-143: remove CR, LF and double quote (code points
13, 10, 34), replace '/' (47) by '-' (45), then strip surrounding
whitespace.  Python str.strip on ASCII whitespace. -/
def isPySpace (b : Nat) : Bool := b = 32 || b = 9 || b = 10 || b = 13 || b = 11 || b = 12

def pyStrip (s : CP) : CP :=
  ((s.dropWhile isPySpace).reverse.dropWhile isPySpace).reverse

def sanitizeSubject (s : CP) : CP :=
  pyStrip ((s.filter (fun c => !(c = 10 || c = 13 || c = 34))).map
    (fun c => if c = 47 then 45 else c))

/-- dump_imap.py line 144: strip the characters < > $ backslash /
(code points 60, 62, 36, 92, 47) from the message id. -/
def sanitizeMsgId (s : CP) : CP :=
  s.filter (fun c => !(c = 60 || c = 62 || c = 36 || c = 92 || c = 47))

/-- Result of the per-message name composition, dump_imap.py lines 110-147:
the composed file base name (before trimming), the sanitized message id
used in it, and the updated unknown-id counter. -/
structure Composed where
  name : CP
  mid : CP
  counter : Nat
deriving DecidableEq

/-- dump_imap.py lines 110-146 for one message: metadata extraction with
fallbacks, sanitization, and composition `date + message_id + ' - ' +
subject`. -/
def composeName (m : MsgMeta) (counter : Nat) : Composed :=
  let t := tryMeta m
  let date0 := t.2.1
  let mid0 := t.2.2
  -- lines 132-133 (subject None check), lines 134-135 (date fallback)
  let subject1 := subjectAfterNoneCheck m
  let date1 := if date0 = [] then toCP "Unknown Date" else date0
  -- lines 136-138: if not message_id (None or empty), use the counter
  let p : CP × Nat :=
    match mid0 with
    | none => (natToCP (counter + 1), counter + 1)
    | some s => if s.isEmpty then (natToCP (counter + 1), counter + 1) else (s, counter)
  -- lines 142-146
  let subject2 := sanitizeSubject subject1
  let mid1 := sanitizeMsgId p.1
  { name := date1 ++ mid1 ++ toCP " - " ++ subject2, mid := mid1, counter := p.2 }

/-- The condition of dump_imap.py line 136 (`if not message_id:`) on the
post-try value of message_id: Python None or the empty string. -/
def lacksIdB (m : MsgMeta) : Bool :=
  match (tryMeta m).2.2 with
  | none => true
  | some s => s.isEmpty

/-- The identifiers substituted by lines 137-138 over one folder's message
list, threading the counter exactly as the loop does. -/
def fallbackIds : List MsgMeta → Nat → List Nat
  | [], _ => []
  | m :: ms, c =>
    if lacksIdB m then
      (composeName m c).counter :: fallbackIds ms (composeName m c).counter
    else fallbackIds ms (composeName m c).counter

/-- The value of the counter after one folder's message list. -/
def finalCounter : List MsgMeta → Nat → Nat
  | [], c => c
  | m :: ms, c => finalCounter ms (composeName m c).counter

/-- main's folder loop as seen by the counter: each call of `process`
re-runs lines 97 onward, so each folder's identifier assignments start
from a fresh counter of 0 (dump_imap.py line 97). -/
def runFoldersIds (folders : List (List MsgMeta)) : List (List Nat) :=
  folders.map (fun msgs => fallbackIds msgs 0)

def runFoldersFinal (folders : List (List MsgMeta)) : List Nat :=
  folders.map (fun msgs => finalCounter msgs 0)

/-! ## The delete sequence (dump_imap.py lines 168-185) -/

/-- The session calls the delete sequence can issue, in its textual order:
UID resolution (fetch_uid + parse_uid), the COPY to the trash folder, the
STORE of the Deleted flag, and the expunge. -/
inductive DelOp where
  | fetchUid
  | copy
  | store
  | expunge
deriving DecidableEq, Repr

/-- Oracle for one attempt of the delete sequence: whether UID resolution
succeeds (fetch_uid returning and parse_uid matching; otherwise an
exception), whether the COPY call itself raises, the status string the
COPY returns when it does not raise, and whether STORE or expunge raise. -/
structure DelAttempt where
  uidFetchOk : Bool
  copyRaises : Bool
  copyStatus : String
  storeRaises : Bool
  expungeRaises : Bool
deriving DecidableEq

/-- One pass through the body of `delete` (dump_imap.py lines 171-183):
the session operations issued, and whether an exception was raised
(reaching the except handler of line 184). -/
def attemptRun (a : DelAttempt) : List DelOp × Bool :=
  if a.uidFetchOk = false then ([DelOp.fetchUid], true)
  else if a.copyRaises then ([DelOp.fetchUid, DelOp.copy], true)
  else if a.copyStatus = "OK" then
    if a.storeRaises then ([DelOp.fetchUid, DelOp.copy, DelOp.store], true)
    else if a.expungeRaises then
      ([DelOp.fetchUid, DelOp.copy, DelOp.store, DelOp.expunge], true)
    else ([DelOp.fetchUid, DelOp.copy, DelOp.store, DelOp.expunge], false)
  else ([DelOp.fetchUid, DelOp.copy], false)

/-- `delete` with its unbounded self-retry (line 185), run for at most
`fuel` attempts against a stream of attempt oracles: the trace of session
operations, and `some ()` once an attempt completes without raising
(`none` = still retrying when the fuel runs out; the function has no error
outcome at all, matching the code, which never lets an exception escape). -/
def deleteRun (att : Nat → DelAttempt) : Nat → List DelOp × Option Unit
  | 0 => ([], none)
  | n + 1 =>
    if (attemptRun (att 0)).2 = true then
      ((attemptRun (att 0)).1 ++ (deleteRun (fun k => att (k + 1)) n).1,
        (deleteRun (fun k => att (k + 1)) n).2)
    else ((attemptRun (att 0)).1, some ())

/-- Concatenation of the first `n` attempts' operation traces. -/
def attTraces (att : Nat → DelAttempt) : Nat → List DelOp
  | 0 => []
  | n + 1 => (attemptRun (att 0)).1 ++ attTraces (fun k => att (k + 1)) n

/-! ## The per-folder export loop `process` (dump_imap.py lines 86-165) -/

/-- Python `bytes.split()` with no argument: split on runs of ASCII
whitespace, dropping empty pieces (dump_imap.py line 98). -/
def pySplitAux : List Nat → List Nat → List (List Nat)
  | [], [] => []
  | [], cur => [cur.reverse]
  | b :: r, cur =>
    if isPySpace b then
      match cur with
      | [] => pySplitAux r []
      | _ :: _ => cur.reverse :: pySplitAux r []
    else pySplitAux r (b :: cur)

def pySplit (l : List Nat) : List (List Nat) := pySplitAux l []

/-- Observable side effects of `process`: the isdir check of the configured
local folder (line 94) and each file write (lines 158-159), with the full
bytes written. -/
inductive Event where
  | dirCheck (present : Bool)
  | write (folder : CP) (fname : CP) (content : List Nat)
deriving DecidableEq

/-- The exceptions `process` can raise: FileNotFoundError (line 90),
NotADirectoryError (line 95), OSError carrying the token (line 103). -/
inductive PyErr where
  | searchFailed
  | dirMissing
  | fetchFailed (num : List Nat)
deriving DecidableEq

/-- Oracle inputs of one `process(mail, folder)` call: the search status
and payload (line 87), whether args.local_folder exists (line 94), the
folder name, the per-token fetch results (lines 100, 106) and metadata
(lines 110-127), and the directory's PC_NAME_MAX (line 61). -/
structure ProcInput where
  searchRv : String
  searchData : List Nat
  localDirExists : Bool
  folder : CP
  fetchRv : List Nat → String
  fetchRaw : List Nat → List Nat
  meta : List Nat → MsgMeta
  maxLen : Int

/-- The for loop of dump_imap.py lines 98-159 (delete invocation at line
165 is modelled separately by `deleteRun`): events emitted and normal or
exceptional exit, threading the unknown-id counter. -/
def procLoop (inp : ProcInput) : List (List Nat) → Nat → List Event × Except PyErr Unit
  | [], _ => ([], Except.ok ())
  | num :: ts, counter =>
    if inp.fetchRv num = "OK" then
      Prod.mk
        (Event.write (inp.folder.filter (fun c => c ≠ 34))
          (trim_file_name (composeName (inp.meta num) counter).name (toCP "eml") inp.maxLen
            ++ toCP ".eml")
          (inp.fetchRaw num)
          :: (procLoop inp ts (composeName (inp.meta num) counter).counter).1)
        (procLoop inp ts (composeName (inp.meta num) counter).counter).2
    else ([], Except.error (PyErr.fetchFailed num))

/-- Falling off the end of the function body: a loop that raised
propagates its exception, a completed loop returns Python None. -/
def retOfLoop : Except PyErr Unit → Except PyErr (Option Int)
  | Except.ok _ => Except.ok none
  | Except.error e => Except.error e

/-- dump_imap.py lines 86-165.  The function body has no return statement,
so a completed call returns Python None, modelled as `Except.ok none` of
type `Except PyErr (Option Int)`. -/
def process (inp : ProcInput) : List Event × Except PyErr (Option Int) :=
  if inp.searchRv = "OK" then
    if inp.localDirExists then
      Prod.mk
        (Event.dirCheck true :: (procLoop inp (pySplit inp.searchData) 0).1)
        (retOfLoop (procLoop inp (pySplit inp.searchData) 0).2)
    else ([Event.dirCheck false], Except.error PyErr.dirMissing)
  else ([], Except.error PyErr.searchFailed)

/-- main's folder loop (dump_imap.py lines 227-241): `process` once per
folder; an exception aborts the remaining folders (caught by the top-level
handler at line 242). -/
def mainLoop : List ProcInput → List Event × Except PyErr Unit
  | [] => ([], Except.ok ())
  | inp :: rest =>
    match (process inp).2 with
    | Except.error e => ((process inp).1, Except.error e)
    | Except.ok _ => ((process inp).1 ++ (mainLoop rest).1, (mainLoop rest).2)

/-- How many times the configured local output directory was checked. -/
def countDirChecks (evs : List Event) : Nat :=
  evs.countP (fun e => match e with | Event.dirCheck _ => true | _ => false)

/-- The byte contents written, in order. -/
def writeContents (evs : List Event) : List (List Nat) :=
  evs.filterMap (fun e => match e with
    | Event.write _ _ c => some c
    | _ => none)

/-- The tokens the loop fully processes: the longest all-fetches-OK head of
the token list (a non-OK fetch raises and aborts the loop). -/
def okTokens (inp : ProcInput) : List (List Nat) → List (List Nat)
  | [] => []
  | num :: ts => if inp.fetchRv num = "OK" then num :: okTokens inp ts else []

/-! ## Example inputs used by counterexamples and witnesses -/

/-- A concrete timestamp. -/
def dtEx : DT := ⟨2024, 1, 1, 10, 0, 0⟩

/-- A message with a parseable Date header but an absent Subject header
(so the subject decode raises): realizable with any real email lacking a
Subject line. -/
def mEx : MsgMeta := ⟨none, false, some dtEx, some (toCP "x")⟩

/-- A message with all metadata present. -/
def mOk : MsgMeta := ⟨some (toCP "Hi"), false, some dtEx, some (toCP "id1")⟩

/-- A message with no metadata at all. -/
def mNone : MsgMeta := ⟨none, false, none, none⟩

/-- A `process` run over one folder containing exactly one message, whose
fetch succeeds. -/
def procEx : ProcInput :=
  { searchRv := "OK"
    searchData := [49]
    localDirExists := true
    folder := toCP "INBOX"
    fetchRv := fun _ => "OK"
    fetchRaw := fun _ => [65, 66, 67]
    meta := fun _ => mOk
    maxLen := 255 }

/-- A `process` run whose folder holds no messages. -/
def procEmpty : ProcInput :=
  { searchRv := "OK"
    searchData := []
    localDirExists := true
    folder := toCP "INBOX"
    fetchRv := fun _ => "OK"
    fetchRaw := fun _ => []
    meta := fun _ => mOk
    maxLen := 255 }

/-- `procEmpty` with the configured local directory absent. -/
def procNoDir : ProcInput :=
  { searchRv := "OK"
    searchData := []
    localDirExists := false
    folder := toCP "INBOX"
    fetchRv := fun _ => "OK"
    fetchRaw := fun _ => []
    meta := fun _ => mOk
    maxLen := 255 }

/-- A delete attempt whose UID resolution always raises. -/
def attEx : Nat → DelAttempt := fun _ => ⟨false, false, "OK", false, false⟩

/-- A delete attempt whose COPY returns a non-success status. -/
def attCopyNo : DelAttempt := ⟨true, false, "NO", false, false⟩

/-! ## UTF-8 codec lemmas -/

set_option maxRecDepth 4096

/-- Decoding one code point inverts the encoder, yields a valid scalar,
and consumes at least one byte. -/
theorem utf8DecodeChar_spec {l : List Nat} {cp : Nat} {r : List Nat}
    (h : utf8DecodeChar l = some (cp, r)) :
    utf8EncodeChar cp ++ r = l ∧ ValidCP cp ∧ r.length < l.length := by
  rcases l with _ | ⟨b, _ | ⟨c1, _ | ⟨c2, _ | ⟨c3, r3⟩⟩⟩⟩
  · simp [utf8DecodeChar] at h
  all_goals
    simp only [utf8DecodeChar] at h
    split_ifs at h <;>
      first
        | exact Option.noConfusion h
        | (simp only [Option.some.injEq, Prod.mk.injEq] at h
           obtain ⟨rfl, rfl⟩ := h
           refine ⟨?_, by unfold ValidCP; omega,
             by simp only [List.length_cons]; omega⟩
           simp only [utf8EncodeChar]
           split_ifs <;>
             first
               | (exfalso; omega)
               | (simp only [List.cons_append, List.nil_append, List.cons.injEq,
                   and_true]
                  try rfl
                  try omega
                  done))

/-- A successful whole-string decode inverts the encoder and yields only
valid scalars. -/
theorem utf8DecodeN_spec :
    ∀ (n : Nat) (l : List Nat) (cs : CP), utf8DecodeN n l = some cs →
      utf8Encode cs = l ∧ ∀ c ∈ cs, ValidCP c := by
  intro n
  induction n with
  | zero =>
    intro l cs h
    cases l with
    | nil =>
      simp only [utf8DecodeN, Option.some.injEq] at h
      subst h
      exact ⟨rfl, by simp⟩
    | cons b r => exact Option.noConfusion h
  | succ n ih =>
    intro l cs h
    cases l with
    | nil =>
      simp only [utf8DecodeN, Option.some.injEq] at h
      subst h
      exact ⟨rfl, by simp⟩
    | cons b r0 =>
      simp only [utf8DecodeN] at h
      cases hd : utf8DecodeChar (b :: r0) with
      | none => rw [hd] at h; exact Option.noConfusion h
      | some p =>
        rcases p with ⟨cp, r⟩
        rw [hd] at h
        have h2 : Option.map (fun cs => cp :: cs) (utf8DecodeN n r) = some cs := h
        cases hn : utf8DecodeN n r with
        | none => rw [hn] at h2; exact Option.noConfusion h2
        | some cs' =>
          rw [hn] at h2
          simp only [Option.map_some', Option.some.injEq] at h2
          subst h2
          obtain ⟨he1, hv1, _⟩ := utf8DecodeChar_spec hd
          obtain ⟨he2, hv2⟩ := ih r cs' hn
          refine ⟨?_, ?_⟩
          · show utf8EncodeChar cp ++ utf8Encode cs' = b :: r0
            rw [he2, he1]
          · intro c hc
            rcases List.mem_cons.mp hc with rfl | hc'
            · exact hv1
            · exact hv2 c hc'

/-- `bytes.decode` succeeding means the decoded string re-encodes to the
same bytes and is valid text. -/
theorem utf8Decode_spec {l : List Nat} {cs : CP} (h : utf8Decode l = some cs) :
    utf8Encode cs = l ∧ ∀ c ∈ cs, ValidCP c :=
  utf8DecodeN_spec l.length l cs h

/-- The decode-or-drop-a-byte loop always returns valid text that encodes
into at most as many bytes as it was given. -/
theorem fitBytesN_spec :
    ∀ (n : Nat) (bs : List Nat), bs.length ≤ n →
      (utf8Encode (fitBytesN n bs)).length ≤ bs.length ∧
        ∀ c ∈ fitBytesN n bs, ValidCP c := by
  intro n
  induction n with
  | zero =>
    intro bs hb
    have hbs : bs = [] := List.length_eq_zero.mp (Nat.le_zero.mp hb)
    subst hbs
    simp [fitBytesN, utf8Decode, utf8DecodeN, utf8Encode]
  | succ n ih =>
    intro bs hb
    cases hd : utf8Decode bs with
    | some cs =>
      obtain ⟨he, hv⟩ := utf8Decode_spec hd
      simp only [fitBytesN, hd]
      exact ⟨le_of_eq (congrArg List.length he), hv⟩
    | none =>
      simp only [fitBytesN, hd]
      have h1 : bs.dropLast.length ≤ n := by
        simp only [List.length_dropLast]; omega
      obtain ⟨ha, hv⟩ := ih bs.dropLast h1
      refine ⟨le_trans ha ?_, hv⟩
      simp only [List.length_dropLast]; omega

theorem fitBytes_spec (bs : List Nat) :
    (utf8Encode (fitBytes bs)).length ≤ bs.length ∧
      ∀ c ∈ fitBytes bs, ValidCP c :=
  fitBytesN_spec bs.length bs le_rfl

/-- A slice with a nonnegative bound keeps at most that many elements. -/
theorem pySlice_length_le {l : List Nat} {n : Int} (hn : 0 ≤ n) :
    ((pySlice l n).length : Int) ≤ n := by
  unfold pySlice
  rw [if_neg (not_lt.mpr hn)]
  have := List.length_take n.toNat l
  omega

/-! ## Claim C4 -/

/-- C4 counterexample: with name of 10 bytes, extension `eml` and a
directory byte limit of 2, the byte budget is `2 - 3 - 1 = -2`; Python's
negative slice keeps 8 bytes, so the returned name's UTF-8 byte length (8)
exceeds the claimed bound `maxBytes - extLen - 1`. -/
theorem trim_file_name_bound_counterexample :
    ¬ (((utf8Encode (trim_file_name (toCP "aaaaaaaaaa") (toCP "eml") 2)).length : Int)
        ≤ 2 - ((utf8Encode (toCP "eml")).length : Int) - 1) := by decide

/-- C4 (amended): for every valid-text input name and extension, and every
directory byte limit of at least the extension's byte length plus one (so
the main-part budget is nonnegative — true of any real PC_NAME_MAX), the
name returned by trim_file_name has UTF-8 byte length at most
maxBytes - extLen - 1 and is valid text, including when truncation falls
inside a multi-byte character. -/
theorem trim_file_name_bound (name ext : CP) (maxLen : Int)
    (hv : ∀ c ∈ name, ValidCP c)
    (hm : ((utf8Encode ext).length : Int) + 1 ≤ maxLen) :
    ((utf8Encode (trim_file_name name ext maxLen)).length : Int)
        ≤ maxLen - ((utf8Encode ext).length : Int) - 1 ∧
      ∀ c ∈ trim_file_name name ext maxLen, ValidCP c := by
  unfold trim_file_name
  split_ifs with h
  · have h0 : (0 : Int) ≤ maxLen - ((utf8Encode ext).length : Int) - 1 := by omega
    obtain ⟨ha, hv2⟩ := fitBytes_spec
      (pySlice (utf8Encode name) (maxLen - ((utf8Encode ext).length : Int) - 1))
    have hb := pySlice_length_le (l := utf8Encode name) h0
    exact ⟨by omega, hv2⟩
  · exact ⟨by omega, hv⟩

theorem trim_file_name_bound_witness :
    ((utf8Encode (trim_file_name (toCP "hello") (toCP "eml") 10)).length : Int)
        ≤ 10 - ((utf8Encode (toCP "eml")).length : Int) - 1 ∧
      ∀ c ∈ trim_file_name (toCP "hello") (toCP "eml") 10, ValidCP c :=
  trim_file_name_bound (toCP "hello") (toCP "eml") 10 (by decide) (by decide)

/-! ## Claim C9 -/

/-- C9: the name-fitting operation is identity on already-fitting names,
hence idempotent there: if the name's byte length is within the budget,
one application returns it unchanged and so does a second. -/
theorem trim_idempotent (name ext : CP) (maxLen : Int)
    (h : ((utf8Encode name).length : Int)
        ≤ maxLen - ((utf8Encode ext).length : Int) - 1) :
    trim_file_name name ext maxLen = name ∧
      trim_file_name (trim_file_name name ext maxLen) ext maxLen = name := by
  have h1 : trim_file_name name ext maxLen = name := by
    unfold trim_file_name
    rw [if_neg (not_lt.mpr h)]
  refine ⟨h1, ?_⟩
  rw [h1, h1]

theorem trim_idempotent_witness :
    trim_file_name (toCP "abc") (toCP "eml") 255 = toCP "abc" ∧
      trim_file_name (trim_file_name (toCP "abc") (toCP "eml") 255)
        (toCP "eml") 255 = toCP "abc" :=
  trim_idempotent (toCP "abc") (toCP "eml") 255 (by decide)

/-! ## Claim C3 -/

/-- The date segment composed on success is never the empty string. -/
theorem strftime_sep_ne_nil (dt : DT) : strftime dt ++ toCP " - " ≠ [] := by
  intro h
  have h2 : toCP " - " = [] := (List.append_eq_nil.mp h).2
  exact absurd h2 (by decide)

/-- C3 counterexample: `mEx` has a Date header that parses (`dateParsed =
some dtEx`), yet because its Subject decode raises the composed name
begins with `Unknown Date`, not with the formatted date. -/
theorem date_segment_counterexample :
    mEx.dateParsed = some dtEx ∧
      (composeName mEx 0).name = toCP "Unknown Date1 - No subject" ∧
      ((composeName mEx 0).name).take (strftime dtEx ++ toCP " - ").length
        ≠ strftime dtEx ++ toCP " - " := by
  refine ⟨rfl, by decide, by decide⟩

/-- C3 (amended): the composed base name begins with the date formatted as
YYYY-MM-DD HH:MM:SS followed by " - " exactly when subject decoding
succeeded, the date pipeline did not raise, and the Date header parsed;
"Unknown Date" is the head segment when the date is absent or unparseable,
when the date pipeline raises, or when subject decoding fails (the whole
metadata block shares one try/except, so a subject failure also forfeits
the date). -/
theorem date_segment_spec (m : MsgMeta) (c : Nat) :
    (∀ dt : DT, m.subjectDecoded ≠ none → m.dateRaises = false →
        m.dateParsed = some dt →
        ((composeName m c).name).take (strftime dt ++ toCP " - ").length
          = strftime dt ++ toCP " - ") ∧
      ((m.subjectDecoded = none ∨ m.dateRaises = true ∨ m.dateParsed = none) →
        ((composeName m c).name).take (toCP "Unknown Date").length
          = toCP "Unknown Date") := by
  constructor
  · intro dt hs hr hd
    rcases hsd : m.subjectDecoded with _ | s
    · exact absurd hsd hs
    · simp only [composeName, tryMeta, subjectAfterNoneCheck, hsd, hr, hd,
        Bool.false_eq_true, if_false]
      rw [if_neg (strftime_sep_ne_nil dt)]
      rw [List.append_assoc, List.append_assoc]
      exact List.take_left _ _
  · intro hcase
    rcases hsd : m.subjectDecoded with _ | s
    · simp only [composeName, tryMeta, subjectAfterNoneCheck, hsd]
      rw [if_true]
      rw [List.append_assoc, List.append_assoc]
      exact List.take_left _ _
    · cases hr : m.dateRaises with
      | true =>
        simp only [composeName, tryMeta, subjectAfterNoneCheck, hsd, hr, if_true]
        rw [List.append_assoc, List.append_assoc]
        exact List.take_left _ _
      | false =>
        cases hd : m.dateParsed with
        | none =>
          simp only [composeName, tryMeta, subjectAfterNoneCheck, hsd, hr, hd,
            Bool.false_eq_true, if_false]
          rw [if_true]
          rw [List.append_assoc, List.append_assoc]
          exact List.take_left _ _
        | some dt =>
          exfalso
          rcases hcase with h1 | h2 | h3
          · rw [hsd] at h1; exact Option.noConfusion h1
          · rw [hr] at h2; exact Bool.noConfusion h2
          · rw [hd] at h3; exact Option.noConfusion h3

theorem date_segment_spec_witness :
    ((composeName mOk 0).name).take (strftime dtEx ++ toCP " - ").length
      = strftime dtEx ++ toCP " - " :=
  (date_segment_spec mOk 0).1 dtEx (by decide) rfl rfl

/-! ## Claim C6 -/

/-- The counter update of dump_imap.py lines 136-138: plus one exactly when
the post-try message id is falsy. -/
theorem composeName_counter (m : MsgMeta) (c : Nat) :
    (composeName m c).counter = if lacksIdB m then c + 1 else c := by
  cases h2 : (tryMeta m).2.2 with
  | none => simp [composeName, lacksIdB, h2]
  | some s => cases hs : s.isEmpty <;> simp [composeName, lacksIdB, h2, hs]

/-- Threading the counter through a message list from any start value
yields the consecutive integers following it, one per id-lacking message. -/
theorem fallbackIds_eq (msgs : List MsgMeta) :
    ∀ c : Nat, fallbackIds msgs c = List.range' (c + 1) (msgs.countP lacksIdB) ∧
      finalCounter msgs c = c + msgs.countP lacksIdB := by
  induction msgs with
  | nil => intro c; simp [fallbackIds, finalCounter]
  | cons m ms ih =>
    intro c
    have hc := composeName_counter m c
    cases hl : lacksIdB m with
    | false =>
      rw [hl, if_neg (by simp)] at hc
      constructor
      · rw [fallbackIds, hl]
        simp only [Bool.false_eq_true, if_false, hc]
        rw [(ih c).1]
        simp [List.countP_cons, hl]
      · rw [finalCounter, hc, (ih c).2]
        simp [List.countP_cons, hl]
    | true =>
      rw [hl, if_pos rfl] at hc
      have hcount : (m :: ms).countP lacksIdB = ms.countP lacksIdB + 1 := by
        simp [List.countP_cons, hl]
      constructor
      · rw [fallbackIds, hl]
        simp only [if_true, hc]
        rw [(ih (c + 1)).1]
        rw [hcount, List.range'_succ]
      · rw [finalCounter, hc, (ih (c + 1)).2]
        rw [hcount]
        omega

/-- C6: in every folder of a run, the unknown-id counter starts at 0
(line 97 re-runs per process call), is incremented exactly once per
message whose post-try message id is missing or empty, and the substituted
identifiers are exactly 1, 2, ..., k for that folder — strictly increasing
from 1 and unique within the folder's export pass, independent of other
folders. -/
theorem unknown_id_counter_spec (folders : List (List MsgMeta)) :
    runFoldersIds folders =
        folders.map (fun msgs => List.range' 1 (msgs.countP lacksIdB)) ∧
      runFoldersFinal folders =
        folders.map (fun msgs => msgs.countP lacksIdB) := by
  constructor
  · unfold runFoldersIds
    apply List.map_congr_left
    intro msgs _
    have := (fallbackIds_eq msgs 0).1
    simpa using this
  · unfold runFoldersFinal
    apply List.map_congr_left
    intro msgs _
    have := (fallbackIds_eq msgs 0).2
    simpa using this

/-! ## Claim C10 -/

/-- C10: after the metadata try/except, the subject variable is never
Python None (it starts as the string 'No subject' and is only ever
reassigned to `str(header)`), so the line-133 fallback string
'No Subject' is dead: the value after the None check is exactly the
try-block value, and the fallback that can actually appear is the
line-111 literal 'No subject'. -/
theorem subject_fallback_literal (m : MsgMeta) :
    (tryMeta m).1.isSome = true ∧
      subjectAfterNoneCheck m = ((tryMeta m).1).getD (toCP "No Subject") ∧
      (m.subjectDecoded = none → subjectAfterNoneCheck m = toCP "No subject") := by
  rcases hsd : m.subjectDecoded with _ | s
  · refine ⟨?_, ?_, ?_⟩ <;> simp [tryMeta, subjectAfterNoneCheck, hsd]
  · cases hr : m.dateRaises <;>
      (refine ⟨?_, ?_, ?_⟩ <;> simp [tryMeta, subjectAfterNoneCheck, hsd, hr])

theorem subject_fallback_literal_witness :
    (tryMeta mNone).1.isSome = true ∧
      subjectAfterNoneCheck mNone = ((tryMeta mNone).1).getD (toCP "No Subject") ∧
      (mNone.subjectDecoded = none →
        subjectAfterNoneCheck mNone = toCP "No subject") :=
  subject_fallback_literal mNone

/-! ## Claim C1 -/

/-- C1: the contents written by the export loop are exactly the raw fetch
payloads of the processed messages, token for token, whatever the metadata
oracle says (the universally quantified `inp.meta` covers every
subject/date/id parsing outcome). -/
theorem written_bytes_eq_fetched (inp : ProcInput) :
    ∀ (toks : List (List Nat)) (counter : Nat),
      writeContents (procLoop inp toks counter).1 =
        (okTokens inp toks).map inp.fetchRaw := by
  intro toks
  induction toks with
  | nil => intro c; rfl
  | cons num ts ih =>
    intro c
    by_cases h : inp.fetchRv num = "OK"
    · simp only [procLoop, okTokens, if_pos h, writeContents,
        List.filterMap_cons, List.map_cons]
      exact congrArg (List.cons (inp.fetchRaw num)) (ih _)
    · simp only [procLoop, okTokens, if_neg h, writeContents,
        List.filterMap_nil, List.map_nil]

/-! ## Claim C2 -/

/-- C2 counterexample: a folder whose search finds one message and whose
export completes; `process` returns Python None, not the count 1. -/
theorem process_return_counterexample :
    (pySplit procEx.searchData).length = 1 ∧
      (process procEx).2 ≠ Except.ok (some 1) := by
  constructor
  · rfl
  · intro hcl
    have h0 : (process procEx).2 = Except.ok none := rfl
    rw [h0] at hcl
    exact Option.noConfusion (Except.ok.inj hcl)

/-- C2 (amended): for every folder on which it runs to completion, the
process function returns no value — its body has no return statement, so
the caller always receives Python None, never a message count. -/
theorem process_returns_none (inp : ProcInput) (r : Option Int)
    (h : (process inp).2 = Except.ok r) : r = none := by
  unfold process at h
  split_ifs at h with h1 h2
  · have h3 : retOfLoop (procLoop inp (pySplit inp.searchData) 0).2
        = Except.ok r := h
    cases hp : (procLoop inp (pySplit inp.searchData) 0).2 with
    | ok u =>
      rw [hp] at h3
      simp only [retOfLoop, Except.ok.injEq] at h3
      exact h3.symm
    | error e =>
      rw [hp] at h3
      exact Except.noConfusion h3

theorem process_returns_none_witness :
    (process procEx).2 = Except.ok none ∧ (none : Option Int) = none :=
  ⟨rfl, process_returns_none procEx none rfl⟩

/-! ## Claim C5 -/

/-- The message loop itself never checks the configured local directory:
the only line-94 check is the one at the top of each process call. -/
theorem procLoop_no_dirCheck (inp : ProcInput) :
    ∀ toks c, countDirChecks (procLoop inp toks c).1 = 0 := by
  intro toks
  induction toks with
  | nil => intro c; rfl
  | cons num ts ih =>
    intro c
    by_cases h : inp.fetchRv num = "OK"
    · simp only [procLoop, if_pos h]
      unfold countDirChecks
      rw [List.countP_cons]
      have h0 := ih (composeName (inp.meta num) c).counter
      unfold countDirChecks at h0
      simp [h0]
    · simp [procLoop, if_neg h, countDirChecks]

/-- C5 counterexample: a run over two folders performs the local-directory
existence check twice — once per folder, not once per run. -/
theorem dir_check_once_counterexample :
    countDirChecks (mainLoop [procEmpty, procEmpty]).1 = 2 ∧
      ¬ countDirChecks (mainLoop [procEmpty, procEmpty]).1 = 1 :=
  ⟨rfl, by decide⟩

/-- C5 (amended): the existence check of the configured local output
directory is performed once per folder export — each process call with a
successful search performs exactly one check — and when the directory is
absent that folder's export fails with the DirectoryMissing condition
(NotADirectoryError). -/
theorem dir_check_each_folder (inp : ProcInput) (h : inp.searchRv = "OK") :
    countDirChecks (process inp).1 = 1 ∧
      (inp.localDirExists = false →
        (process inp).2 = Except.error PyErr.dirMissing) := by
  constructor
  · unfold process
    rw [if_pos h]
    by_cases hd : inp.localDirExists
    · rw [if_pos hd]
      show countDirChecks
        (Event.dirCheck true :: (procLoop inp (pySplit inp.searchData) 0).1) = 1
      unfold countDirChecks
      rw [List.countP_cons]
      have h0 := procLoop_no_dirCheck inp (pySplit inp.searchData) 0
      unfold countDirChecks at h0
      simp [h0]
    · rw [if_neg hd]
      rfl
  · intro hfd
    unfold process
    rw [if_pos h, if_neg (by simp [hfd])]

theorem dir_check_each_folder_witness :
    countDirChecks (process procNoDir).1 = 1 ∧
      (procNoDir.localDirExists = false →
        (process procNoDir).2 = Except.error PyErr.dirMissing) :=
  dir_check_each_folder procNoDir rfl

/-! ## Claim C7 -/

/-- Every attempt of the delete sequence begins by resolving the UID:
fetch_uid is the first session call of the try block. -/
theorem attemptRun_head (a : DelAttempt) :
    ((attemptRun a).1).head? = some DelOp.fetchUid := by
  unfold attemptRun
  split_ifs <;> rfl

/-- While every attempt raises, the delete call keeps retrying: its trace
is the concatenation of the attempts' traces and it has not returned. -/
theorem deleteRun_all_raise :
    ∀ (n : Nat) (att : Nat → DelAttempt),
      (∀ k, k < n → (attemptRun (att k)).2 = true) →
      deleteRun att n = (attTraces att n, none) := by
  intro n
  induction n with
  | zero => intro att h; rfl
  | succ n ih =>
    intro att h
    have h0 : (attemptRun (att 0)).2 = true := h 0 (Nat.succ_pos n)
    have hrec := ih (fun k => att (k + 1))
      (fun k hk => h (k + 1) (Nat.succ_lt_succ hk))
    simp only [deleteRun, attTraces, if_pos h0, hrec]

/-- C7: if an exception is raised anywhere in the delete sequence (UID
resolution, copy, flag, expunge), the whole sequence is retried from the
UID-resolution step, unconditionally and without bound — after any number
of all-raising attempts the call is still retrying (`none`), no error is
ever surfaced (the return type has no error outcome, matching the bare
`except: return delete(...)`), and every attempt's trace starts with the
fetch-UID call. -/
theorem delete_retry_unbounded (att : Nat → DelAttempt) (n : Nat)
    (h : ∀ k, k < n → (attemptRun (att k)).2 = true) :
    deleteRun att n = (attTraces att n, none) ∧
      ∀ k, ((attemptRun (att k)).1).head? = some DelOp.fetchUid :=
  ⟨deleteRun_all_raise n att h, fun k => attemptRun_head (att k)⟩

theorem delete_retry_unbounded_witness :
    deleteRun attEx 2 = (attTraces attEx 2, none) ∧
      ∀ k, ((attemptRun (attEx k)).1).head? = some DelOp.fetchUid :=
  delete_retry_unbounded attEx 2 (fun k _ => rfl)

/-! ## Claim C8 -/

/-- C8: within one attempt of the delete sequence, the Deleted-flag STORE
and the expunge are issued exactly when the COPY into the trash folder ran
without raising and reported the success status; on a non-success copy
status neither happens in that attempt. -/
theorem copy_gates_store_expunge (a : DelAttempt) :
    ((DelOp.store ∈ (attemptRun a).1 ∨ DelOp.expunge ∈ (attemptRun a).1) →
        a.copyStatus = "OK" ∧ a.copyRaises = false ∧ a.uidFetchOk = true) ∧
      (¬ a.copyStatus = "OK" →
        ¬ DelOp.store ∈ (attemptRun a).1 ∧
          ¬ DelOp.expunge ∈ (attemptRun a).1) := by
  unfold attemptRun
  split_ifs with h1 h2 h3 h4 h5 <;>
    constructor <;> simp_all

theorem copy_gates_store_expunge_witness :
    ¬ DelOp.store ∈ (attemptRun attCopyNo).1 ∧
      ¬ DelOp.expunge ∈ (attemptRun attCopyNo).1 :=
  (copy_gates_store_expunge attCopyNo).2 (by decide)
